import Mathlib

/-!
Verification of the Task Interpretation & Execution Engine of the
Self-OPERATING PC automation system.

The repository source under scrutiny is `src/app.py` (the Flask transport
layer, embedded below where claims touch it: the startup mode resolution,
the keyboard/mouse/app routes).  The `automation` package that `app.py`
imports (`TaskInterpreter`, `AppManager`, `InputController`, `ScreenReader`)
is not part of the available sources, so the Task Parser, Plan Executor,
facade and Device Control Interface stand-ins are modelled from the
specification (each such definition says so in its doc comment).

All string processing is implemented over `List Char` with structural
recursion so that every definition evaluates by kernel reduction.
-/

namespace SelfOp

/-- An ActionStep: a tagged variant over the operations the system can
perform (spec section 3).  Each variant carries only the parameters needed
to invoke the corresponding Device Control Interface method. -/
inductive ActionStep where
  | MoveMouse (x y : Int)
  | Click (x y : Option Int) (button : String)
  | TypeText (text : String)
  | Hotkey (keys : List String)
  | OpenApp (name : String)
  | CaptureScreen
  | ReadScreenText
  | Wait (durationMs : Nat)
deriving DecidableEq, Repr

/-- Result of executing one ActionStep: success flag, optional captured
data, optional error detail (spec section 3). -/
structure StepOutcome where
  success : Bool
  data : Option String
  error : Option String
deriving DecidableEq, Repr

/-- Aggregate result over an ActionPlan execution: overall success flag,
human-readable summary message, ordered StepOutcome sequence. -/
structure ExecutionResult where
  success : Bool
  message : String
  outcomes : List StepOutcome
deriving DecidableEq, Repr

/-- Split a character list on whitespace, structurally (accumulator holds
the current word reversed). -/
def splitWS : List Char → List Char → List (List Char)
  | [], acc => if acc.isEmpty then [] else [acc.reverse]
  | c :: cs, acc =>
    if c.isWhitespace then
      if acc.isEmpty then splitWS cs [] else acc.reverse :: splitWS cs []
    else splitWS cs (c :: acc)

/-- Split a character list on a separator character, structurally. -/
def splitOnChar (sep : Char) : List Char → List Char → List (List Char)
  | [], acc => [acc.reverse]
  | c :: cs, acc =>
    if c = sep then acc.reverse :: splitOnChar sep cs []
    else splitOnChar sep cs (c :: acc)

/-- Lower-cased whitespace-delimited tokens of a task text. -/
def tokens (s : String) : List String :=
  (splitWS s.data []).map (fun l => String.mk (l.map Char.toLower))

/-- Join tokens back into a single-space-separated string. -/
def joinTokens : List String → String
  | [] => ""
  | [w] => w
  | w :: ws => w ++ " " ++ joinTokens ws

/-- Structural decimal-digit accumulator. -/
def digitsToNat : List Char → Nat → Option Nat
  | [], acc => some acc
  | c :: cs, acc =>
    if c.isDigit then digitsToNat cs (acc * 10 + (c.toNat - 48)) else none

/-- Parse a nonnegative decimal numeral. -/
def parseNat (s : String) : Option Nat :=
  match s.data with
  | [] => none
  | c :: cs => digitsToNat (c :: cs) 0

/-- Parse a coordinate pair written as two numerals joined by a comma. -/
def parseCoordPair (s : String) : Option (Int × Int) :=
  match (splitOnChar (Char.ofNat 44) s.data []).map (fun l => String.mk l) with
  | [a, b] =>
    match parseNat a, parseNat b with
    | some x, some y => some (Int.ofNat x, Int.ofNat y)
    | _, _ => none
  | _ => none

/-- Locate the first occurrence of the token pair "and" "type" in a token
list, returning the tokens before it and the tokens after it. -/
def splitAndType : List String → Option (List String × List String)
  | [] => none
  | "and" :: "type" :: rest => some ([], rest)
  | w :: rest => (splitAndType rest).map (fun p => (w :: p.1, p.2))

/-- Diagnostic for input no rule matches; it names the unrecognized text. -/
def unrecognized (t : String) : String :=
  "Unrecognized task: " ++ t

/-- Modelled from the spec: the Task Parser `parse(text) -> ActionPlan`
(spec section 4.1; the `automation.task_interpreter` module is not among
the available sources).  A prioritized table of case-insensitive keyword
rules over normalized whitespace: the compound rule
"open NAME and type TEXT" is tried before the single-verb rules
open / type / press / move to / click at / click / capture screen /
read screen / wait.  Failure carries a diagnostic naming the unrecognized
text.  The function is pure: its output depends on the input text alone. -/
def parse (t : String) : Except String (List ActionStep) :=
  match tokens t with
  | "open" :: rest =>
    if rest.isEmpty then Except.error (unrecognized t)
    else
      match splitAndType rest with
      | some (appWs, textWs) =>
        if appWs.isEmpty || textWs.isEmpty then Except.error (unrecognized t)
        else Except.ok [ActionStep.OpenApp (joinTokens appWs),
                        ActionStep.TypeText (joinTokens textWs)]
      | none => Except.ok [ActionStep.OpenApp (joinTokens rest)]
  | "type" :: rest =>
    if rest.isEmpty then Except.error (unrecognized t)
    else Except.ok [ActionStep.TypeText (joinTokens rest)]
  | ["press", combo] =>
    Except.ok [ActionStep.Hotkey ((splitOnChar (Char.ofNat 43) combo.data []).map String.mk)]
  | ["hotkey", combo] =>
    Except.ok [ActionStep.Hotkey ((splitOnChar (Char.ofNat 43) combo.data []).map String.mk)]
  | ["move", "to", coords] =>
    match parseCoordPair coords with
    | some (x, y) => Except.ok [ActionStep.MoveMouse x y]
    | none => Except.error (unrecognized t)
  | ["click", "at", coords] =>
    match parseCoordPair coords with
    | some (x, y) => Except.ok [ActionStep.Click (some x) (some y) "left"]
    | none => Except.error (unrecognized t)
  | ["click"] => Except.ok [ActionStep.Click none none "left"]
  | ["capture", "screen"] => Except.ok [ActionStep.CaptureScreen]
  | ["read", "screen"] => Except.ok [ActionStep.ReadScreenText]
  | ["read", "screen", "text"] => Except.ok [ActionStep.ReadScreenText]
  | ["wait", ms] =>
    match parseNat ms with
    | some n => Except.ok [ActionStep.Wait n]
    | none => Except.error (unrecognized t)
  | _ => Except.error (unrecognized t)

/-- Modelled from the spec: the bundle of Device Control Interface methods
the Plan Executor dispatches to (spec section 4.4; the `automation` modules
are not among the available sources).  Per spec section 2, knowledge of the
Mode is confined to the Device Control Interfaces, so the executor is
parameterized by this bundle; the Simulated mode is the concrete bundle
`simulatedBackend` below, while a Live bundle is an arbitrary value of this
type.  Fallible calls return `Except`; the App Manager deliberately
returns a `(Bool, detail)` pair instead (it fails softly). -/
structure Backend where
  capture : Except String String
  extractText : Except String String
  move : Int → Int → Except String Unit
  click : Option Int → Option Int → String → Except String Unit
  typeText : String → Except String Unit
  pressCombination : List String → Except String Unit
  openApp : String → Bool × String

/-- Modelled from the spec: the deterministic Simulated-mode stand-ins,
each returning a fixed synthetic success value (a placeholder image,
empty extracted text, success for any application name). -/
def simulatedBackend : Backend where
  capture := Except.ok "placeholder-image-1x1"
  extractText := Except.ok ""
  move := fun _ _ => Except.ok ()
  click := fun _ _ _ => Except.ok ()
  typeText := fun _ => Except.ok ()
  pressCombination := fun _ => Except.ok ()
  openApp := fun n => (true, "Simulated opening of " ++ n)

/-- Convert a unit-valued interface call result into a StepOutcome. -/
def outcomeOfUnit : Except String Unit → StepOutcome
  | Except.ok _ => { success := true, data := none, error := none }
  | Except.error e => { success := false, data := none, error := some e }

/-- Convert a data-returning interface call result into a StepOutcome. -/
def outcomeOfData : Except String String → StepOutcome
  | Except.ok v => { success := true, data := some v, error := none }
  | Except.error e => { success := false, data := none, error := some e }

/-- Modelled from the spec: per-step dispatch of the Plan Executor
(spec section 4.2) — each step invokes exactly one Device Control
Interface method; `Wait` is a pure delay with no device interaction; a
soft App Manager failure becomes a failed StepOutcome carrying the reason. -/
def dispatch (b : Backend) : ActionStep → StepOutcome
  | ActionStep.MoveMouse x y => outcomeOfUnit (b.move x y)
  | ActionStep.Click x y btn => outcomeOfUnit (b.click x y btn)
  | ActionStep.TypeText s => outcomeOfUnit (b.typeText s)
  | ActionStep.Hotkey ks => outcomeOfUnit (b.pressCombination ks)
  | ActionStep.OpenApp n =>
    match b.openApp n with
    | (true, msg) => { success := true, data := some msg, error := none }
    | (false, msg) => { success := false, data := none, error := some msg }
  | ActionStep.CaptureScreen => outcomeOfData b.capture
  | ActionStep.ReadScreenText => outcomeOfData b.extractText
  | ActionStep.Wait _ => { success := true, data := none, error := none }

/-- Modelled from the spec: the step loop of the Plan Executor
(spec section 4.2) — steps run strictly in plan order, and on the first
failing step execution halts immediately; steps after it are not
attempted. -/
def runSteps (b : Backend) : List ActionStep → List StepOutcome
  | [] => []
  | s :: rest =>
    let o := dispatch b s
    if o.success then o :: runSteps b rest else [o]

/-- Summary message over the outcome sequence: names the first failing
step (1-based) and its error detail, or reports full completion. -/
def summarize : Nat → List StepOutcome → String
  | _, [] => "All steps completed successfully"
  | k, o :: rest =>
    if o.success then summarize (k + 1) rest
    else "Step " ++ toString (k + 1) ++ " failed: " ++ o.error.getD "unknown error"

/-- Modelled from the spec: the Plan Executor
`run(plan, mode) -> ExecutionResult` (spec section 4.2), with the mode
represented by the Device Control Interface bundle it selects.  Overall
success holds iff every executed step succeeded. -/
def run (b : Backend) (plan : List ActionStep) : ExecutionResult :=
  let outs := runSteps b plan
  { success := outs.all (fun o => o.success)
    message := summarize 0 outs
    outcomes := outs }

/-- Modelled from the spec: the Task Interpreter facade
`execute(taskText) -> ExecutionResult` (spec section 6), generic in the
backend: on parse failure it returns success=false with an empty
StepOutcome sequence and the parser diagnostic as the message; otherwise
it runs the plan. -/
def executeB (b : Backend) (t : String) : ExecutionResult :=
  match parse t with
  | Except.error d => { success := false, message := d, outcomes := [] }
  | Except.ok plan => run b plan

/-- Modelled from the spec: the facade under Simulated mode, the
configuration every claim scenario names explicitly. -/
def execute (t : String) : ExecutionResult :=
  executeB simulatedBackend t

/-- Mode: enum over Live and Simulated (spec section 3). -/
inductive Mode where
  | Live
  | Simulated
deriving DecidableEq, Repr

/-- Character-wise lower-casing of a string (embeds Python lower()). -/
def lcString (s : String) : String :=
  String.mk (s.data.map Char.toLower)

/-- Embeds src/app.py lines 20-35: SIMULATION_MODE starts True, the
pyautogui screen-size probe switches to Live mode when it yields a size,
and the FORCE_SIMULATION_MODE environment variable (compared lower-cased
against "true") forces Simulated afterwards regardless of the probe.
The resolution runs once, at module import, and SIMULATION_MODE is never
reassigned elsewhere in app.py, so it is a pure function of the probe
result and the environment value. -/
def resolveMode (probeResult : Option (Nat × Nat)) (forceEnv : String) : Mode :=
  let probed := match probeResult with
    | some _ => Mode.Live
    | none => Mode.Simulated
  if lcString forceEnv = "true" then Mode.Simulated else probed

/-- A transport-layer JSON response: success flag, optional message,
optional error, HTTP status code. -/
structure ApiResponse where
  success : Bool
  message : Option String
  error : Option String
  status : Nat
deriving DecidableEq, Repr

/-- Modelled from the spec: App Manager `open(name) -> (bool, detail)`
(spec section 4.4; the `automation.app_manager` module is not among the
available sources).  It fails softly — a total function returning false
plus a reason when the application is not found — parameterized by the
set of openable applications on the host. -/
def open_app (known : List String) (name : String) : Bool × String :=
  if known.contains name then (true, "Opened " ++ name)
  else (false, "Application not found: " ++ name)

/-- Embeds src/app.py lines 168-198 (`open_application`): rejects a
missing or empty application name with status 400, otherwise calls
App Manager open_app and propagates its pair — success becomes a 200
message, a soft failure becomes a 500 response whose error field is the
returned reason.  No branch raises. -/
def open_application (known : List String) (app_name : Option String) : ApiResponse :=
  match app_name with
  | none =>
    { success := false, message := none, error := some "Missing application name", status := 400 }
  | some n =>
    if n = "" then
      { success := false, message := none, error := some "Missing application name", status := 400 }
    else
      match open_app known n with
      | (true, _) =>
        { success := true
          message := some ("Application \x27" ++ n ++ "\x27 opened successfully")
          error := none, status := 200 }
      | (false, reason) =>
        { success := false, message := none, error := some reason, status := 500 }

/-- Embeds src/app.py lines 124-144 (`type_text`): a missing text field or
an empty text string (both falsy in the source) is rejected with status
400 and error "Missing text" before the Input Controller is touched; the
second component records whether `input_controller.type_text` was
invoked. -/
def type_text (text : Option String) : ApiResponse × Bool :=
  match text with
  | none =>
    ({ success := false, message := none, error := some "Missing text", status := 400 }, false)
  | some s =>
    if s = "" then
      ({ success := false, message := none, error := some "Missing text", status := 400 }, false)
    else
      ({ success := true, message := none, error := none, status := 200 }, true)

/-- The Input Controller click call issued by the mouse-click route:
either at explicit coordinates or at the current pointer position. -/
inductive ClickCall where
  | atCoords (x y : Int) (button : String)
  | atCurrent (button : String)
deriving DecidableEq, Repr

/-- The button a ClickCall carries. -/
def ClickCall.button : ClickCall → String
  | ClickCall.atCoords _ _ b => b
  | ClickCall.atCurrent b => b

/-- Embeds src/app.py lines 102-122 (`click_mouse`): the button defaults
to "left" when not supplied; when both x and y are present the click is
dispatched at those coordinates, otherwise at the current pointer
position. -/
def click_mouse (x y : Option Int) (button : Option String) : ApiResponse × ClickCall :=
  let btn := button.getD "left"
  match x, y with
  | some a, some b =>
    ({ success := true, message := none, error := none, status := 200 }, ClickCall.atCoords a b btn)
  | _, _ =>
    ({ success := true, message := none, error := none, status := 200 }, ClickCall.atCurrent btn)

/-- A concrete backend used to witness the failure-path theorems: its
Input Controller typeText call fails, everything else succeeds. -/
def typeFailBackend : Backend where
  capture := Except.ok "placeholder-image-1x1"
  extractText := Except.ok ""
  move := fun _ _ => Except.ok ()
  click := fun _ _ _ => Except.ok ()
  typeText := fun _ => Except.error "InjectionUnavailable"
  pressCombination := fun _ => Except.ok ()
  openApp := fun n => (true, "Opened " ++ n)

/-- A concrete three-step plan whose second step fails under
`typeFailBackend`. -/
def testPlan : List ActionStep :=
  [ActionStep.OpenApp "notepad", ActionStep.TypeText "hi", ActionStep.Wait 100]

theorem dispatch_success_eq (b : Backend) (s : ActionStep) :
    (dispatch b s).success = !(dispatch b s).error.isSome := by
  cases s with
  | MoveMouse x y => cases hm : b.move x y <;> simp [dispatch, outcomeOfUnit, hm]
  | Click x y btn => cases hm : b.click x y btn <;> simp [dispatch, outcomeOfUnit, hm]
  | TypeText s => cases hm : b.typeText s <;> simp [dispatch, outcomeOfUnit, hm]
  | Hotkey ks => cases hm : b.pressCombination ks <;> simp [dispatch, outcomeOfUnit, hm]
  | OpenApp n =>
    rcases hm : b.openApp n with ⟨ok, msg⟩
    cases ok <;> simp [dispatch, hm]
  | CaptureScreen => cases hm : b.capture <;> simp [dispatch, outcomeOfData, hm]
  | ReadScreenText => cases hm : b.extractText <;> simp [dispatch, outcomeOfData, hm]
  | Wait d => simp [dispatch]

theorem dispatch_sim (s : ActionStep) :
    (dispatch simulatedBackend s).success = true
    ∧ (dispatch simulatedBackend s).error = none := by
  cases s <;> simp [dispatch, simulatedBackend, outcomeOfUnit, outcomeOfData]

theorem runSteps_all_ok (b : Backend) (plan : List ActionStep)
    (h : ∀ s ∈ plan, (dispatch b s).success = true) :
    runSteps b plan = plan.map (dispatch b) := by
  induction plan with
  | nil => rfl
  | cons s rest ih =>
    have hs : (dispatch b s).success = true := h s (by simp)
    simp [runSteps, hs, ih fun x hx => h x (by simp [hx])]

theorem runSteps_halt (b : Backend) (plan : List ActionStep) :
    ∀ (k : Nat) (hk : k < plan.length),
    ((plan.take k).map (dispatch b)).all (fun o => o.success) = true →
    (dispatch b (plan.get ⟨k, hk⟩)).success = false →
    runSteps b plan = (plan.take k).map (dispatch b) ++ [dispatch b (plan.get ⟨k, hk⟩)] := by
  induction plan with
  | nil => intro k hk; exact absurd hk (by simp)
  | cons s rest ih =>
    intro k hk hpre hfail
    cases k with
    | zero =>
      have hf : (dispatch b s).success = false := hfail
      simp [runSteps, hf]
    | succ k =>
      simp only [List.take_succ_cons, List.map_cons, List.all_cons, Bool.and_eq_true] at hpre
      obtain ⟨hs, hpre2⟩ := hpre
      have hk2 : k < rest.length := Nat.lt_of_succ_lt_succ hk
      have hfail2 : (dispatch b (rest.get ⟨k, hk2⟩)).success = false := hfail
      have step := ih k hk2 hpre2 hfail2
      simp [runSteps, hs, List.take_succ_cons, step]

theorem summarize_append_fail (o : StepOutcome) (ho : o.success = false)
    (pre : List StepOutcome) :
    ∀ n : Nat, pre.all (fun x => x.success) = true →
    summarize n (pre ++ [o]) =
      "Step " ++ toString (n + pre.length + 1) ++ " failed: " ++ o.error.getD "unknown error" := by
  induction pre with
  | nil => intro n _; simp [summarize, ho]
  | cons x pre ih =>
    intro n hall
    simp only [List.all_cons, Bool.and_eq_true] at hall
    obtain ⟨hx, hall2⟩ := hall
    have key := ih (n + 1) hall2
    have harith : n + 1 + pre.length + 1 = n + (x :: pre).length + 1 := by
      simp [List.length_cons]; omega
    rw [harith] at key
    simpa [summarize, hx] using key

theorem runSteps_flag (b : Backend) (plan : List ActionStep) :
    (runSteps b plan).all (fun o => o.success)
      = !(runSteps b plan).any (fun o => o.error.isSome) := by
  induction plan with
  | nil => rfl
  | cons s rest ih =>
    have hde := dispatch_success_eq b s
    cases hs : (dispatch b s).success with
    | false =>
      have : (dispatch b s).error.isSome = true := by
        rw [hs] at hde; simpa using hde.symm
      simp [runSteps, hs, this]
    | true =>
      have : (dispatch b s).error.isSome = false := by
        rw [hs] at hde; simpa using hde.symm
      simp [runSteps, hs, this, ih]

theorem runSteps_error_detail (b : Backend) (plan : List ActionStep) :
    (runSteps b plan).all (fun o => o.success || o.error.isSome) = true := by
  induction plan with
  | nil => rfl
  | cons s rest ih =>
    have hde := dispatch_success_eq b s
    cases hs : (dispatch b s).success with
    | false =>
      have : (dispatch b s).error.isSome = true := by
        rw [hs] at hde; simpa using hde.symm
      simp [runSteps, hs, this]
    | true => simp [runSteps, hs, ih]

theorem all_map_of (f : ActionStep → StepOutcome) (p : StepOutcome → Bool)
    (l : List ActionStep) (h : ∀ s ∈ l, p (f s) = true) : (l.map f).all p = true := by
  induction l with
  | nil => rfl
  | cons s rest ih =>
    simp only [List.map_cons, List.all_cons, Bool.and_eq_true]
    exact ⟨h s (by simp), ih fun x hx => h x (by simp [hx])⟩

theorem all_append_single (l : List StepOutcome) (o : StepOutcome) (p : StepOutcome → Bool)
    (hp : p o = false) : (l ++ [o]).all p = false := by
  induction l with
  | nil => simp [hp]
  | cons x rest ih =>
    simp only [List.cons_append, List.all_cons, ih, Bool.and_false]

/-- Claim C1: executing any ActionPlan with the Plan Executor against the
Simulated-mode Device Control Interface stand-ins yields an
ExecutionResult with success = true and exactly one StepOutcome per plan
step, none of which carries error detail, because every stand-in returns
a fixed synthetic success value. -/
theorem simulation_parity (plan : List ActionStep) :
    (run simulatedBackend plan).success = true
    ∧ (run simulatedBackend plan).outcomes.length = plan.length
    ∧ (run simulatedBackend plan).outcomes.all (fun o => o.error.isNone) = true := by
  have houts : runSteps simulatedBackend plan = plan.map (dispatch simulatedBackend) :=
    runSteps_all_ok _ _ fun s _ => (dispatch_sim s).1
  refine ⟨?_, ?_, ?_⟩
  · show (runSteps simulatedBackend plan).all (fun o => o.success) = true
    rw [houts]
    exact all_map_of _ _ _ fun s _ => (dispatch_sim s).1
  · show (runSteps simulatedBackend plan).length = plan.length
    rw [houts, List.length_map]
  · show (runSteps simulatedBackend plan).all (fun o => o.error.isNone) = true
    rw [houts]
    refine all_map_of _ _ _ fun s _ => ?_
    simp [(dispatch_sim s).2]

/-- Claim C2: for every backend and plan, if the first k steps succeed and
step k (0-based) fails, `run` returns exactly the outcomes of steps 0..k in
plan order — the k successes followed by the failing outcome, nothing
after it — with overall success false and a summary naming the first
failing step (1-based) and its error detail; and if no step fails the
StepOutcome sequence is the dispatch image of the whole plan, in order. -/
theorem run_halt_on_first_failure (b : Backend) (plan : List ActionStep) :
    (∀ k, (hk : k < plan.length) →
      ((plan.take k).map (dispatch b)).all (fun o => o.success) = true →
      (dispatch b (plan.get ⟨k, hk⟩)).success = false →
      (run b plan).outcomes
          = (plan.take k).map (dispatch b) ++ [dispatch b (plan.get ⟨k, hk⟩)]
        ∧ (run b plan).success = false
        ∧ (run b plan).message =
            "Step " ++ toString (k + 1) ++ " failed: "
              ++ ((dispatch b (plan.get ⟨k, hk⟩)).error.getD "unknown error"))
    ∧ ((∀ s ∈ plan, (dispatch b s).success = true) →
      (run b plan).outcomes = plan.map (dispatch b)
      ∧ (run b plan).success = true) := by
  constructor
  · intro k hk hpre hfail
    have houts : runSteps b plan
        = (plan.take k).map (dispatch b) ++ [dispatch b (plan.get ⟨k, hk⟩)] :=
      runSteps_halt b plan k hk hpre hfail
    have hlen : ((plan.take k).map (dispatch b)).length = k := by
      simp only [List.length_map, List.length_take]
      omega
    refine ⟨houts, ?_, ?_⟩
    · show (runSteps b plan).all (fun o => o.success) = false
      rw [houts]
      exact all_append_single _ _ _ hfail
    · show summarize 0 (runSteps b plan) = _
      rw [houts]
      have key := summarize_append_fail _ hfail ((plan.take k).map (dispatch b)) 0 hpre
      rw [hlen] at key
      simpa using key
  · intro h
    have houts : runSteps b plan = plan.map (dispatch b) := runSteps_all_ok b plan h
    refine ⟨houts, ?_⟩
    show (runSteps b plan).all (fun o => o.success) = true
    rw [houts]
    exact all_map_of _ _ _ h

/-- Witness for C2: under `typeFailBackend`, `testPlan` fails at its second
step (index 1) with the recorded prefix, flag and message. -/
theorem run_halt_on_first_failure_witness :
    (run typeFailBackend testPlan).outcomes
        = (testPlan.take 1).map (dispatch typeFailBackend)
            ++ [dispatch typeFailBackend (testPlan.get ⟨1, by decide⟩)]
      ∧ (run typeFailBackend testPlan).success = false
      ∧ (run typeFailBackend testPlan).message =
          "Step " ++ toString (1 + 1) ++ " failed: "
            ++ ((dispatch typeFailBackend (testPlan.get ⟨1, by decide⟩)).error.getD
                  "unknown error") :=
  (run_halt_on_first_failure typeFailBackend testPlan).1 1 (by decide) rfl rfl

/-- Claim C3: the Task Parser is deterministic — two invocations on the
same task text yield the same result, and any two plans it returns for
that text agree in step count and are structurally identical (same variant
sequence and extracted parameters). -/
theorem parse_deterministic (t : String) :
    parse t = parse t
    ∧ ∀ p q : List ActionStep, parse t = Except.ok p → parse t = Except.ok q →
        p.length = q.length ∧ p = q := by
  refine ⟨rfl, fun p q hp hq => ?_⟩
  rw [hp] at hq
  injection hq with h
  subst h
  exact ⟨rfl, rfl⟩

/-- Witness for C3 at the text "type hi". -/
theorem parse_deterministic_witness :
    [ActionStep.TypeText "hi"].length = [ActionStep.TypeText "hi"].length
    ∧ [ActionStep.TypeText "hi"] = [ActionStep.TypeText "hi"] :=
  (parse_deterministic "type hi").2 [ActionStep.TypeText "hi"] [ActionStep.TypeText "hi"] rfl rfl

/-- Claim C4: the facade on the empty text and on "xyzzy nonsense" returns
success = false with an empty StepOutcome sequence and a diagnostic
message naming the unrecognized text. -/
theorem execute_unrecognized_inputs :
    (execute "").success = false
    ∧ (execute "").outcomes = []
    ∧ (execute "").message = "Unrecognized task: "
    ∧ (execute "xyzzy nonsense").success = false
    ∧ (execute "xyzzy nonsense").outcomes = []
    ∧ (execute "xyzzy nonsense").message = "Unrecognized task: xyzzy nonsense" :=
  ⟨rfl, rfl, rfl, rfl, rfl, rfl⟩

/-- Claim C5: parsing "open notepad and type hello world" yields the plan
[OpenApp notepad, TypeText hello world], and executing it under Simulated
mode yields success = true with exactly two StepOutcomes, both
successful. -/
theorem scenario_open_and_type :
    parse "open notepad and type hello world"
        = Except.ok [ActionStep.OpenApp "notepad", ActionStep.TypeText "hello world"]
    ∧ (execute "open notepad and type hello world").success = true
    ∧ (execute "open notepad and type hello world").outcomes.length = 2
    ∧ (execute "open notepad and type hello world").outcomes.all (fun o => o.success) = true :=
  ⟨rfl, rfl, rfl, rfl⟩

/-- Claim C6: for every backend and task text the facade is the only
failure channel — its success flag is false exactly when the parser
rejected the text or some recorded StepOutcome carries error detail, and
every recorded StepOutcome either succeeded or carries error detail, so
each step-level failure is converted into a StepOutcome entry rather than
escaping `execute`. -/
theorem failures_confined_to_result (b : Backend) (t : String) :
    ((executeB b t).success = false ↔
      ((∃ d, parse t = Except.error d)
        ∨ (executeB b t).outcomes.any (fun o => o.error.isSome) = true))
    ∧ (executeB b t).outcomes.all (fun o => o.success || o.error.isSome) = true := by
  cases hp : parse t with
  | error d =>
    have he : executeB b t = { success := false, message := d, outcomes := [] } := by
      simp [executeB, hp]
    rw [he]
    constructor
    · constructor
      · intro _
        exact Or.inl ⟨d, rfl⟩
      · intro _
        rfl
    · rfl
  | ok plan =>
    have he : executeB b t = run b plan := by
      simp [executeB, hp]
    rw [he]
    have hflag := runSteps_flag b plan
    constructor
    · constructor
      · intro h
        right
        show (runSteps b plan).any (fun o => o.error.isSome) = true
        have h2 : (runSteps b plan).all (fun o => o.success) = false := h
        rw [hflag] at h2
        simpa using h2
      · rintro (⟨d, hd⟩ | h)
        · exact absurd hd (by simp)
        · show (runSteps b plan).all (fun o => o.success) = false
          have h2 : (runSteps b plan).any (fun o => o.error.isSome) = true := h
          rw [hflag, h2]
          rfl
    · show (runSteps b plan).all (fun o => o.success || o.error.isSome) = true
      exact runSteps_error_detail b plan

/-- Witness for C6 at `typeFailBackend` and the text "type hi". -/
theorem failures_confined_to_result_witness :
    ((executeB typeFailBackend "type hi").success = false ↔
      ((∃ d, parse "type hi" = Except.error d)
        ∨ (executeB typeFailBackend "type hi").outcomes.any (fun o => o.error.isSome) = true))
    ∧ (executeB typeFailBackend "type hi").outcomes.all
        (fun o => o.success || o.error.isSome) = true :=
  failures_confined_to_result typeFailBackend "type hi"

/-- Claim C7: the Mode is a pure function of the one-time startup probe
and the forcing environment variable: when the flag is set (compares
lower-cased equal to "true") the Mode is Simulated regardless of the
probe, and otherwise it is Live exactly when the display probe returned a
screen size; nothing else enters the resolution, so the value is fixed
for the process with no per-request override. -/
theorem mode_resolution (probe : Option (Nat × Nat)) (env : String) :
    (lcString env = "true" → resolveMode probe env = Mode.Simulated)
    ∧ (lcString env ≠ "true" →
        resolveMode probe env
          = match probe with
            | some _ => Mode.Live
            | none => Mode.Simulated) := by
  constructor <;> intro h <;> simp [resolveMode, h]

/-- Witness for C7: with a live display probe but FORCE_SIMULATION_MODE
set to "TRUE", the resolved Mode is Simulated. -/
theorem mode_resolution_witness :
    resolveMode (some (1920, 1080)) "TRUE" = Mode.Simulated :=
  (mode_resolution (some (1920, 1080)) "TRUE").1 (by decide)

/-- Claim C8: App Manager open on an unknown application name returns the
pair (false, reason) instead of raising — it is a total function — and
the caller route propagates that pair as a soft failure: success = false
with the returned reason as the error field. -/
theorem open_app_soft_failure (known : List String) (name : String)
    (hname : name ≠ "")
    (hnf : known.contains name = false) :
    (open_app known name).1 = false
    ∧ (open_app known name).2 = "Application not found: " ++ name
    ∧ (open_application known (some name)).success = false
    ∧ (open_application known (some name)).error = some ((open_app known name).2)
    ∧ (open_application known (some name)).status = 500 := by
  have h1 : open_app known name = (false, "Application not found: " ++ name) := by
    simp only [open_app]
    rw [hnf]
    simp
  have h2 : open_application known (some name)
      = { success := false, message := none
          error := some ("Application not found: " ++ name), status := 500 } := by
    simp only [open_application]
    rw [if_neg hname, h1]
  refine ⟨by rw [h1], by rw [h1], by rw [h2], ?_, by rw [h2]⟩
  rw [h2, h1]

/-- Witness for C8: opening "chrome" against a host knowing only
"notepad". -/
theorem open_app_soft_failure_witness :
    (open_app ["notepad"] "chrome").1 = false
    ∧ (open_app ["notepad"] "chrome").2 = "Application not found: " ++ "chrome"
    ∧ (open_application ["notepad"] (some "chrome")).success = false
    ∧ (open_application ["notepad"] (some "chrome")).error
        = some ((open_app ["notepad"] "chrome").2)
    ∧ (open_application ["notepad"] (some "chrome")).status = 500 :=
  open_app_soft_failure ["notepad"] "chrome" (by decide) (by decide)

/-- Claim C9: the keyboard-type route rejects an absent or empty text
parameter with success = false, error "Missing text" and status 400 before
any type injection is attempted, and the Input Controller type call is
made exactly when the text is present and non-empty. -/
theorem type_text_rejects_empty (text : Option String) :
    ((text = none ∨ text = some "") →
      (type_text text).1.success = false
      ∧ (type_text text).1.error = some "Missing text"
      ∧ (type_text text).1.status = 400
      ∧ (type_text text).2 = false)
    ∧ (∀ s, text = some s → s ≠ "" → (type_text text).2 = true) := by
  constructor
  · rintro (rfl | rfl) <;> exact ⟨rfl, rfl, rfl, rfl⟩
  · rintro s rfl hs
    simp [type_text, hs]

/-- Witness for C9: empty text is rejected without invoking the
controller; "hello" invokes it. -/
theorem type_text_rejects_empty_witness :
    ((type_text (some "")).1.success = false
      ∧ (type_text (some "")).1.error = some "Missing text"
      ∧ (type_text (some "")).1.status = 400
      ∧ (type_text (some "")).2 = false)
    ∧ (type_text (some "hello")).2 = true :=
  ⟨(type_text_rejects_empty (some "")).1 (Or.inr rfl),
   (type_text_rejects_empty (some "hello")).2 "hello" rfl (by decide)⟩

/-- Claim C10: the mouse-click route dispatches a coordinate click exactly
when both x and y are present, a current-position click when either is
missing, and in both cases the button defaults to "left" when not
supplied. -/
theorem click_mouse_dispatch (x y : Option Int) (button : Option String) :
    (∀ a b, x = some a → y = some b →
      (click_mouse x y button).2 = ClickCall.atCoords a b (button.getD "left"))
    ∧ ((x = none ∨ y = none) →
      (click_mouse x y button).2 = ClickCall.atCurrent (button.getD "left"))
    ∧ (button = none → ((click_mouse x y button).2).button = "left") := by
  refine ⟨?_, ?_, ?_⟩
  · rintro a b rfl rfl
    rfl
  · rintro (rfl | rfl)
    · cases y <;> rfl
    · cases x <;> rfl
  · rintro rfl
    cases x <;> cases y <;> rfl

/-- Witness for C10 on concrete requests: both coordinates present, one
missing, and no button supplied. -/
theorem click_mouse_dispatch_witness :
    (click_mouse (some 100) (some 200) none).2
        = ClickCall.atCoords 100 200 ((none : Option String).getD "left")
    ∧ (click_mouse none (some 200) none).2
        = ClickCall.atCurrent ((none : Option String).getD "left")
    ∧ ((click_mouse none none none).2).button = "left" :=
  ⟨(click_mouse_dispatch (some 100) (some 200) none).1 100 200 rfl rfl,
   (click_mouse_dispatch none (some 200) none).2.1 (Or.inl rfl),
   (click_mouse_dispatch none none none).2.2 rfl⟩

end SelfOp
